import Mathlib

/-!
Shallow embedding of the airflow repository's orchestration core and
validation layer, together with theorems settling the specification's
claims about it.

Sources embedded here:
  - the job processors, retry configuration and validation snippets of
    src/api/index.ts (expire-booking, process-waitlist, start-boarding,
    the bookedSeats availability check, the BullMQ retry options and the
    dead-letter handler);
  - the Prisma schema defaults (Booking.status PENDING, Ticket.ticketStatus
    ISSUED);
  - src/unnamed/part_004 and part_005 (zod validators with the
    subYears(date, 18) refinement) and src/unnamed/part_001 (AppError).
Components that the repository only documents (the seat allocator's
release, the booking create flow, the scheduler's dispatch loop) are
modelled from the specification and marked as such in their doc comments.
-/

namespace Airflow

/-- BookingStatus enum of the Prisma schema. -/
inductive BookingStatus
  | PENDING
  | CONFIRMED
  | CANCELLED
  | COMPLETED
deriving DecidableEq, Repr

/-- TicketStatus enum of the Prisma schema. -/
inductive TicketStatus
  | ISSUED
  | CHECKED_IN
  | BOARDED
  | CANCELLED
  | REFUNDED
deriving DecidableEq, Repr

/-- FlightStatus enum of the Prisma schema. -/
inductive FlightStatus
  | SCHEDULED
  | BOARDING
  | DEPARTED
  | IN_FLIGHT
  | LANDED
  | ARRIVED
  | DELAYED
  | CANCELLED
deriving DecidableEq, Repr

/-- WaitlistStatus enum of the Prisma schema. -/
inductive WaitlistStatus
  | ACTIVE
  | CONFIRMED
  | EXPIRED
  | CANCELLED
deriving DecidableEq, Repr

/-- JobStatus domain of the specification's Job entity. -/
inductive JobStatus
  | PENDING
  | RUNNING
  | DONE
  | FAILED
  | DEAD
deriving DecidableEq, Repr

end Airflow

namespace Airflow.Validation

/-- Calendar date, the value produced by z.coerce.date() in the validators
(src/unnamed/part_004 and part_005). Year is an integer so that
subtraction of years is total. -/
structure DateD where
  year : Int
  month : Nat
  day : Nat
deriving DecidableEq, Repr

/-- Gregorian leap-year rule, as used by date-fns when clamping
February days. -/
def isLeapYear (y : Int) : Bool :=
  (y % 4 == 0 && y % 100 != 0) || (y % 400 == 0)

/-- Number of days of a month, used to clamp the day when shifting years. -/
def daysInMonth (y : Int) (m : Nat) : Nat :=
  if m = 2 then (if isLeapYear y then 29 else 28)
  else if m = 4 ∨ m = 6 ∨ m = 9 ∨ m = 11 then 30
  else 31

/-- date-fns subYears: shift the year down by n, clamping the day to the
length of the resulting month (Feb 29 → Feb 28 on non-leap years). -/
def subYears (d : DateD) (n : Int) : DateD :=
  { year := d.year - n
    month := d.month
    day := min d.day (daysInMonth (d.year - n) d.month) }

/-- date-fns isBefore on calendar dates: lexicographic on
(year, month, day). -/
def dateBefore (a b : DateD) : Bool :=
  a.year < b.year ||
    (a.year == b.year &&
      (a.month < b.month || (a.month == b.month && a.day < b.day)))

/-- date-fns isEqual on calendar dates. -/
def dateEqB (a b : DateD) : Bool :=
  a.year == b.year && a.month == b.month && a.day == b.day

/-- The dateOfBirth refinement of signUpSchema (src/unnamed/part_005
lines 30-35) and createUserSchema (src/unnamed/part_004 lines 23-28):
boundary = subYears(date, 18) computed from the submitted date itself,
and the check passes when isBefore(date, boundary) or
isEqual(date, boundary). -/
def dobRefine (date : DateD) : Bool :=
  let boundary := subYears date 18
  dateBefore date boundary || dateEqB date boundary

/-- AppError of src/unnamed/part_001: statusCode, message, isOperational. -/
structure AppError where
  statusCode : Nat
  message : String
  isOperational : Bool
deriving DecidableEq, Repr

/-- BadRequestError factory of src/unnamed/part_001: statusCode 400. -/
def badRequestError (m : String) : AppError :=
  { statusCode := 400, message := m, isOperational := true }

/-- Payload of signUpSchema (src/unnamed/part_005). -/
structure SignUpPayload where
  firstName : String
  lastName : String
  email : String
  phone : String
  password : String
  dateOfBirth : DateD

/-- Payload of createUserSchema (src/unnamed/part_004): same fields minus
password. -/
structure CreateUserPayload where
  firstName : String
  lastName : String
  email : String
  phone : String
  dateOfBirth : DateD

/-- Issues a zod string length check produces for a name field. -/
def nameIssues (tag : String) (s : String) : List String :=
  if s.length < 2 then [tag ++ " must be at least two characters long."]
  else if 50 < s.length then [tag ++ " must be 50 characters long at most."]
  else []

/-- Issue list of signUpSchema.safeParse in schema field order; the email,
phone and password checks are abstracted as boolean predicates supplied by
the caller, since the claim holds regardless of them. -/
def signUpIssues (emailOk phoneOk passwordOk : String → Bool)
    (p : SignUpPayload) : List String :=
  nameIssues "First name" p.firstName ++
  nameIssues "Last name" p.lastName ++
  (if emailOk p.email then [] else ["Please enter a valid email."]) ++
  (if phoneOk p.phone then [] else
    ["Phone number must be exactly 13 characters long with the specified format."]) ++
  (if passwordOk p.password then [] else ["Please enter a valid password."]) ++
  (if dobRefine p.dateOfBirth then [] else
    ["You must be at least 18 years old to sign up."])

/-- Issue list of createUserSchema.safeParse in schema field order. -/
def createUserIssues (emailOk phoneOk : String → Bool)
    (p : CreateUserPayload) : List String :=
  nameIssues "First name" p.firstName ++
  nameIssues "Last name" p.lastName ++
  (if emailOk p.email then [] else ["Please enter a valid email."]) ++
  (if phoneOk p.phone then [] else
    ["Phone number must be exactly 13 characters long with the specified format."]) ++
  (if dobRefine p.dateOfBirth then [] else ["Invalid input"])

/-- validateSignUpPayload (src/unnamed/part_005 lines 38-42): safeParse,
and on failure throw BadRequestError with the first issue's message. -/
def validateSignUpPayload (emailOk phoneOk passwordOk : String → Bool)
    (p : SignUpPayload) : Except AppError SignUpPayload :=
  match signUpIssues emailOk phoneOk passwordOk p with
  | [] => Except.ok p
  | m :: _ => Except.error (badRequestError m)

/-- validateCreateUserPayload (src/unnamed/part_004 lines 31-35). -/
def validateCreateUserPayload (emailOk phoneOk : String → Bool)
    (p : CreateUserPayload) : Except AppError CreateUserPayload :=
  match createUserIssues emailOk phoneOk p with
  | [] => Except.ok p
  | m :: _ => Except.error (badRequestError m)

end Airflow.Validation

namespace Airflow

/-- Booking record: the fields of the Prisma Booking model that the
orchestration core reads (id, flight reference via its tickets, status).
The flightId field mirrors the booking.flightId access of the
expire-booking processor. -/
structure Booking where
  id : Nat
  flightId : Nat
  status : BookingStatus
deriving DecidableEq, Repr

/-- Ticket record of the Prisma schema: booking ref, flight ref, nullable
seat ref, status (default ISSUED per the schema). -/
structure Ticket where
  id : Nat
  bookingId : Nat
  flightId : Nat
  seatId : Option Nat
  status : TicketStatus
deriving DecidableEq, Repr

/-- Waitlist record: passenger ref, flight ref, waitlistRank, createdAt
timestamp and status. -/
structure WaitlistEntry where
  id : Nat
  passengerId : Nat
  flightId : Nat
  waitlistRank : Nat
  createdAt : Nat
  status : WaitlistStatus
deriving DecidableEq, Repr

/-- Flight record restricted to the fields the status processors read. -/
structure Flight where
  id : Nat
  status : FlightStatus
deriving DecidableEq, Repr

/-- FlightStatusHistory row written by the start-boarding transaction
(src/api/index.ts lines 1743-1750). -/
structure HistoryRecord where
  flightId : Nat
  oldStatus : FlightStatus
  newStatus : FlightStatus
  changedAt : Nat
deriving DecidableEq, Repr

/-- Kinds of jobs the embedded processors enqueue. -/
inductive JobKind
  | expireBookingJob
  | processWaitlistJob
  | expireWaitlistConfirmationJob
deriving DecidableEq, Repr

/-- A queue entry produced by bookingQueue.add: kind, payload id and
absolute due time (enqueue time plus delay). -/
structure EnqueuedJob where
  kind : JobKind
  targetId : Nat
  dueAt : Nat
deriving DecidableEq, Repr

/-- A notificationQueue.add event: event name and payload id. -/
structure NotificationEvent where
  event : String
  targetId : Nat
deriving DecidableEq, Repr

/-- The entity store visible to the embedded processors. -/
structure Store where
  flights : List Flight
  bookings : List Booking
  tickets : List Ticket
  waitlist : List WaitlistEntry
deriving DecidableEq, Repr

/-- expire-booking job processor (src/api/index.ts lines 1588-1616): read
the booking; if its status is PENDING, run one transaction that sets the
booking to CANCELLED, sets every ticket of the booking to CANCELLED
(releasing the seat holds) and triggers the waitlist check for the
booking's flight, then emits a booking-expired notification; otherwise do
nothing. The transaction contains no StatusHistory create. A missing
booking makes the handler dereference null and throw, modelled as none.
The HistoryRecord list is the (empty) set of StatusHistory rows the
transaction appends. -/
def expireBooking (s : Store) (bookingId : Nat) (now : Nat) :
    Option (Store × List HistoryRecord × List EnqueuedJob × List NotificationEvent) :=
  match s.bookings.find? (fun b => b.id == bookingId) with
  | none => none
  | some booking =>
    if booking.status == BookingStatus.PENDING then
      some
        ({ s with
            bookings := s.bookings.map (fun b =>
              if b.id == bookingId then { b with status := BookingStatus.CANCELLED } else b)
            tickets := s.tickets.map (fun t =>
              if t.bookingId == bookingId then { t with status := TicketStatus.CANCELLED } else t) },
          [],
          [{ kind := JobKind.processWaitlistJob, targetId := booking.flightId, dueAt := now }],
          [{ event := "booking-expired", targetId := bookingId }])
    else
      some (s, [], [], [])

/-- The orderBy [waitlistRank asc, createdAt asc] comparison of the
process-waitlist query (src/api/index.ts lines 1653-1656). -/
def waitlistLe (a b : WaitlistEntry) : Bool :=
  a.waitlistRank < b.waitlistRank ||
    (a.waitlistRank == b.waitlistRank && a.createdAt ≤ b.createdAt)

/-- Strict (rank, createdAt) ordering between waitlist entries. -/
def waitlistLt (a b : WaitlistEntry) : Prop :=
  a.waitlistRank < b.waitlistRank ∨
    (a.waitlistRank = b.waitlistRank ∧ a.createdAt < b.createdAt)

/-- The where clause of the process-waitlist query: ACTIVE entries of the
flight. -/
def activeEntriesFor (s : Store) (flightId : Nat) : List WaitlistEntry :=
  s.waitlist.filter (fun e =>
    e.flightId == flightId && e.status == WaitlistStatus.ACTIVE)

/-- The rows the process-waitlist query returns: ACTIVE entries of the
flight, ordered by (waitlistRank asc, createdAt asc), limited to
availableSeats. -/
def selectedForPromotion (s : Store) (flightId availableSeats : Nat) :
    List WaitlistEntry :=
  (List.mergeSort (activeEntriesFor s flightId) waitlistLe).take availableSeats

/-- prisma.waitlist.update where id = .. data status CONFIRMED. -/
def confirmEntryById (l : List WaitlistEntry) (id : Nat) : List WaitlistEntry :=
  l.map (fun e =>
    if e.id == id then { e with status := WaitlistStatus.CONFIRMED } else e)

/-- process-waitlist job processor (src/api/index.ts lines 1645-1679):
load ACTIVE entries of the flight ordered by (waitlistRank, createdAt),
take availableSeats of them, and for each one set it to CONFIRMED, emit a
waitlist-confirmed notification and enqueue an
expire-waitlist-confirmation job with a 24-hour delay. -/
def processWaitlist (s : Store) (flightId availableSeats now : Nat) :
    Store × List EnqueuedJob × List NotificationEvent :=
  let sel := selectedForPromotion s flightId availableSeats
  ({ s with waitlist := sel.foldl (fun l e => confirmEntryById l e.id) s.waitlist },
   sel.map (fun e =>
     { kind := JobKind.expireWaitlistConfirmationJob, targetId := e.id,
       dueAt := now + 24 * 60 * 60 * 1000 }),
   sel.map (fun e => { event := "waitlist-confirmed", targetId := e.passengerId }))

/-- start-boarding job processor (src/api/index.ts lines 1729-1758): read
the flight; only when its current status is SCHEDULED, run one
transaction that sets the flight to the job's newStatus and appends one
FlightStatusHistory row, then emit a flight-status-change notification;
for any other current status the handler returns without mutating
anything and without raising any error. A missing flight makes the
handler dereference null and throw, modelled as none. -/
def startBoarding (s : Store) (flightId : Nat) (newStatus : FlightStatus) (now : Nat) :
    Option (Store × List HistoryRecord × List NotificationEvent) :=
  match s.flights.find? (fun f => f.id == flightId) with
  | none => none
  | some flight =>
    if flight.status == FlightStatus.SCHEDULED then
      some
        ({ s with flights := s.flights.map (fun f =>
              if f.id == flightId then { f with status := newStatus } else f) },
          [{ flightId := flightId, oldStatus := flight.status,
             newStatus := newStatus, changedAt := now }],
          [{ event := "flight-status-change", targetId := flightId }])
    else
      some (s, [], [])

/-- Modelled from the spec: the booking create flow of section 4.2 is not
present under src (only the expire-booking enqueue of src/api/index.ts
lines 1576-1585 and the Prisma schema defaults are). It creates a Booking
whose status is the schema default PENDING, a Ticket whose status is the
schema default ISSUED, enqueues an expire-booking job with the coded
15-minute delay, and returns the booking. -/
def createBooking (s : Store) (bookingId ticketId flightId seatId now : Nat) :
    Store × EnqueuedJob × Booking :=
  let booking : Booking :=
    { id := bookingId, flightId := flightId, status := BookingStatus.PENDING }
  let ticket : Ticket :=
    { id := ticketId, bookingId := bookingId, flightId := flightId,
      seatId := some seatId, status := TicketStatus.ISSUED }
  ({ s with bookings := s.bookings ++ [booking], tickets := s.tickets ++ [ticket] },
   { kind := JobKind.expireBookingJob, targetId := bookingId,
     dueAt := now + 15 * 60 * 1000 },
   booking)

/-- A seat-to-ticket assignment held by the allocator. -/
structure SeatAssignment where
  flightId : Nat
  seatId : Nat
  ticketId : Nat
deriving DecidableEq, Repr

/-- Whether some seat is currently assigned to the ticket. -/
def holdsSeat (assigns : List SeatAssignment) (ticketId : Nat) : Bool :=
  assigns.any (fun a => a.ticketId == ticketId)

/-- Modelled from the spec: the Seat Inventory Allocator's
release(ticketId) of section 4.1 is absent from src. It removes any
assignment held by the ticket; on an already-free seat there is nothing
to remove, and the operation is a total function that never raises. -/
def release (assigns : List SeatAssignment) (ticketId : Nat) : List SeatAssignment :=
  assigns.filter (fun a => ! (a.ticketId == ticketId))

/-- One scheduler-visible job record: status, attempts made, the
configured maxAttempts, the delay of the latest (re)schedule and whether
the dead-letter alert was emitted. -/
structure Job where
  status : JobStatus
  attempts : Nat
  maxAttempts : Nat
  delayMs : Nat
  alerted : Bool
deriving DecidableEq, Repr

/-- Exponential backoff delay base * 2 ^ attempts, capped. -/
def backoffDelay (base cap attempts : Nat) : Nat :=
  min (base * 2 ^ attempts) cap

/-- Modelled from the spec: the dispatch loop of section 4.5 lives in the
BullMQ library, not under src; only its configuration (attempts 3,
exponential backoff base 2000, src/api/index.ts lines 1893-1901) and the
dead-letter handler (lines 1905-1923, record plus operator alert once
attempts reach the configured maximum) are in the repository. Steps: a
PENDING job is claimed to RUNNING; a RUNNING job whose handler succeeds
becomes DONE; a RUNNING job whose handler fails increments attempts and
is either rescheduled PENDING with the capped exponential backoff delay
(attempts still below maxAttempts) or moved to DEAD with the operator
alert emitted. -/
inductive JobStep (base cap : Nat) : Job → Job → Prop
  | claim (j : Job) (h : j.status = JobStatus.PENDING) :
      JobStep base cap j { j with status := JobStatus.RUNNING }
  | succeed (j : Job) (h : j.status = JobStatus.RUNNING) :
      JobStep base cap j { j with status := JobStatus.DONE }
  | failRetry (j : Job) (h : j.status = JobStatus.RUNNING)
      (hlt : j.attempts + 1 < j.maxAttempts) :
      JobStep base cap j
        { j with
          status := JobStatus.PENDING
          attempts := j.attempts + 1
          delayMs := backoffDelay base cap (j.attempts + 1) }
  | failDead (j : Job) (h : j.status = JobStatus.RUNNING)
      (hge : j.maxAttempts ≤ j.attempts + 1) :
      JobStep base cap j
        { j with
          status := JobStatus.DEAD
          attempts := j.attempts + 1
          alerted := true }

/-- A freshly enqueued job: PENDING with zero attempts and no alert. -/
def initJob (maxAttempts delayMs : Nat) : Job :=
  { status := JobStatus.PENDING, attempts := 0, maxAttempts := maxAttempts,
    delayMs := delayMs, alerted := false }

/-- Reachability under scheduler steps. -/
def JobReachable (base cap : Nat) (start j : Job) : Prop :=
  Relation.ReflTransGen (JobStep base cap) start j

/-- Inductive invariant of the scheduler loop for a job configured with
maxA attempts: the configuration is stable, attempts stay within budget,
a job that is not DEAD still has retry budget left, and a DEAD job has
had its operator alert emitted. -/
def JobInv (maxA : Nat) (j : Job) : Prop :=
  j.maxAttempts = maxA ∧ j.attempts ≤ maxA ∧
    (j.status ≠ JobStatus.DEAD → j.attempts < maxA) ∧
    (j.status = JobStatus.DEAD → j.alerted = true)

/-- Phase of one in-flight reserve request running the availability-check
then ticket-create sequence. -/
inductive ReservePhase
  | atCheck
  | checkedFree
  | succeeded
  | rejected
deriving DecidableEq, Repr

/-- One in-flight reserve request with the ids it will write. -/
structure ReserveRequest where
  flightId : Nat
  seatId : Nat
  ticketId : Nat
  bookingId : Nat
  phase : ReservePhase
deriving DecidableEq, Repr

/-- bookedSeats availability check (src/api/index.ts lines 2136-2138):
count of tickets referencing the flight and any of the requested seats;
note the query carries no ticket-status filter. -/
def bookedSeatsCount (tickets : List Ticket) (flightId : Nat) (seatIds : List Nat) : Nat :=
  tickets.countP (fun t =>
    t.flightId == flightId && seatIds.any (fun sid => t.seatId == some sid))

/-- One store round-trip of a reserve request, following the
check-then-create code of src/api/index.ts lines 2126-2142: first the
bookedSeats count (throwing Seats-already-booked when positive), then, in
a separate later write, the ticket insert. Each store round-trip is one
atomic micro-step; the gap between the two is where a concurrent request
can interleave. -/
def reserveMicroStep (tickets : List Ticket) (r : ReserveRequest) :
    List Ticket × ReserveRequest :=
  match r.phase with
  | ReservePhase.atCheck =>
    if bookedSeatsCount tickets r.flightId [r.seatId] > 0 then
      (tickets, { r with phase := ReservePhase.rejected })
    else
      (tickets, { r with phase := ReservePhase.checkedFree })
  | ReservePhase.checkedFree =>
    (tickets ++
      [{ id := r.ticketId, bookingId := r.bookingId, flightId := r.flightId,
         seatId := some r.seatId, status := TicketStatus.ISSUED }],
     { r with phase := ReservePhase.succeeded })
  | _ => (tickets, r)

/-- Shared ticket table plus two concurrent reserve requests. -/
structure RaceState where
  tickets : List Ticket
  req1 : ReserveRequest
  req2 : ReserveRequest
deriving DecidableEq, Repr

/-- Let the chosen request perform its next micro-step on the shared
table. -/
def raceStep (s : RaceState) (first : Bool) : RaceState :=
  if first then
    let p := reserveMicroStep s.tickets s.req1
    { s with tickets := p.1, req1 := p.2 }
  else
    let p := reserveMicroStep s.tickets s.req2
    { s with tickets := p.1, req2 := p.2 }

/-- Run an interleaving schedule (true = request 1 moves). -/
def runRace (schedule : List Bool) (s : RaceState) : RaceState :=
  schedule.foldl raceStep s

/-- A ticket that counts against the uniqueness invariant: it references
the (flightId, seatId) pair and is neither CANCELLED nor REFUNDED. -/
def ticketActiveOn (t : Ticket) (flightId seatId : Nat) : Bool :=
  t.flightId == flightId && t.seatId == some seatId &&
    ! (t.status == TicketStatus.CANCELLED) &&
    ! (t.status == TicketStatus.REFUNDED)

end Airflow

namespace Airflow.Validation

/-- The boundary subYears(date, 18) lies in year - 18, hence strictly
before the submitted date, so the refinement can never pass. -/
theorem dobRefine_false (d : DateD) : dobRefine d = false := by
  simp only [dobRefine, subYears, dateBefore, dateEqB, Bool.or_eq_false_iff,
    Bool.and_eq_false_iff, decide_eq_false_iff_not, not_lt, beq_iff_eq,
    beq_eq_false_iff_ne, ne_eq]
  omega

/-- The signUp issue list always ends with the dateOfBirth issue. -/
theorem signUpIssues_ne_nil (emailOk phoneOk passwordOk : String → Bool)
    (p : SignUpPayload) : signUpIssues emailOk phoneOk passwordOk p ≠ [] := by
  unfold signUpIssues
  rw [dobRefine_false]
  simp

/-- The createUser issue list always ends with the dateOfBirth issue. -/
theorem createUserIssues_ne_nil (emailOk phoneOk : String → Bool)
    (p : CreateUserPayload) : createUserIssues emailOk phoneOk p ≠ [] := by
  unfold createUserIssues
  rw [dobRefine_false]
  simp

end Airflow.Validation

namespace Airflow.Validation

/-- C10: for every input payload, validateSignUpPayload and
validateCreateUserPayload throw BadRequestError regardless of the other
fields, because the dateOfBirth refinement compares the submitted date
against subYears(date, 18) computed from that same date, a boundary that
is always strictly earlier, so no date passes and no payload ever
validates successfully. -/
theorem claim_C10_validators_always_reject :
    (∀ d : DateD, dobRefine d = false) ∧
    (∀ (emailOk phoneOk passwordOk : String → Bool) (p : SignUpPayload),
      ∃ m, validateSignUpPayload emailOk phoneOk passwordOk p =
        Except.error (badRequestError m)) ∧
    (∀ (emailOk phoneOk : String → Bool) (p : CreateUserPayload),
      ∃ m, validateCreateUserPayload emailOk phoneOk p =
        Except.error (badRequestError m)) := by
  refine ⟨dobRefine_false, ?_, ?_⟩
  · intro emailOk phoneOk passwordOk p
    cases h : signUpIssues emailOk phoneOk passwordOk p with
    | nil => exact absurd h (signUpIssues_ne_nil emailOk phoneOk passwordOk p)
    | cons m t =>
      refine ⟨m, ?_⟩
      unfold validateSignUpPayload
      rw [h]
  · intro emailOk phoneOk p
    cases h : createUserIssues emailOk phoneOk p with
    | nil => exact absurd h (createUserIssues_ne_nil emailOk phoneOk p)
    | cons m t =>
      refine ⟨m, ?_⟩
      unfold validateCreateUserPayload
      rw [h]

end Airflow.Validation

namespace Airflow

/-- C1: the reserve path of the code is the bookedSeats count followed by
a later, unconditional ticket insert. In the interleaving where both
requests run their availability check before either writes, both pass the
check (bookedSeats = 0) and both insert a ticket: both callers succeed
and two tickets that are neither CANCELLED nor REFUNDED reference the
same (flightId, seatId) pair, so the claimed invariant and the claimed
exactly-one-wins outcome fail on the code. -/
theorem claim_C1_reserve_race_both_succeed :
    let s0 : RaceState :=
      { tickets := []
        req1 := { flightId := 1, seatId := 7, ticketId := 100, bookingId := 10,
                  phase := ReservePhase.atCheck }
        req2 := { flightId := 1, seatId := 7, ticketId := 200, bookingId := 20,
                  phase := ReservePhase.atCheck } }
    let final := runRace [true, false, true, false] s0
    final.req1.phase = ReservePhase.succeeded ∧
    final.req2.phase = ReservePhase.succeeded ∧
    final.tickets.countP (fun t => ticketActiveOn t 1 7) = 2 := by
  decide

/-- C4 counterexample: a start-boarding job on a flight whose current
status is CANCELLED returns successfully with the store unchanged, no
history row and no notification — the invalid transition is silently
swallowed instead of being rejected with a typed InvalidTransition error
(no such error exists anywhere in the repository's error taxonomy). -/
theorem claim_C4_counterexample :
    let s : Store :=
      { flights := [{ id := 1, status := FlightStatus.CANCELLED }]
        bookings := [], tickets := [], waitlist := [] }
    startBoarding s 1 FlightStatus.BOARDING 99 = some (s, [], []) := by
  decide

/-- C4 amended: the scheduled flight-status job processor guards the
transition with an equality check on the current status and, when the
precondition fails (the status is anything other than SCHEDULED), it
performs no state change and returns successfully without raising any
error — invalid transitions are silently dropped, not rejected with a
typed InvalidTransition error. -/
theorem claim_C4_invalid_transition_silently_dropped
    (s : Store) (fid : Nat) (ns : FlightStatus) (now : Nat) (f : Flight)
    (hf : s.flights.find? (fun x => x.id == fid) = some f)
    (hns : f.status ≠ FlightStatus.SCHEDULED) :
    startBoarding s fid ns now = some (s, [], []) := by
  have hb : (f.status == FlightStatus.SCHEDULED) = false :=
    beq_eq_false_iff_ne.mpr hns
  simp [startBoarding, hf, hb]

/-- C4 witness: the amended theorem applied to a concrete one-flight
store whose flight is DELAYED. -/
theorem claim_C4_witness :
    let s : Store :=
      { flights := [{ id := 3, status := FlightStatus.DELAYED }]
        bookings := [], tickets := [], waitlist := [] }
    s.flights.find? (fun x => x.id == 3) =
        some { id := 3, status := FlightStatus.DELAYED } ∧
    startBoarding s 3 FlightStatus.BOARDING 7 = some (s, [], []) :=
  ⟨by decide,
   claim_C4_invalid_transition_silently_dropped _ 3 FlightStatus.BOARDING 7
     { id := 3, status := FlightStatus.DELAYED } (by decide) (by decide)⟩

/-- C5: a scheduled start-boarding job fired after a manual CANCELLED
transition re-reads the current status, performs no state change (the
store, the history rows and the notifications are all untouched) and the
flight's status remains CANCELLED. -/
theorem claim_C5_job_never_overrides_manual_cancel
    (s : Store) (fid : Nat) (ns : FlightStatus) (now : Nat) (f : Flight)
    (hf : s.flights.find? (fun x => x.id == fid) = some f)
    (hc : f.status = FlightStatus.CANCELLED) :
    startBoarding s fid ns now = some (s, [], []) ∧
    ∃ g, s.flights.find? (fun x => x.id == fid) = some g ∧
      g.status = FlightStatus.CANCELLED := by
  constructor
  · have hb : (f.status == FlightStatus.SCHEDULED) = false := by
      rw [hc]
      decide
    simp [startBoarding, hf, hb]
  · exact ⟨f, hf, hc⟩

/-- C5 witness: the theorem applied to a concrete store holding a single
CANCELLED flight. -/
theorem claim_C5_witness :
    let s : Store :=
      { flights := [{ id := 1, status := FlightStatus.CANCELLED }]
        bookings := [], tickets := [], waitlist := [] }
    s.flights.find? (fun x => x.id == 1) =
        some { id := 1, status := FlightStatus.CANCELLED } ∧
    (startBoarding s 1 FlightStatus.BOARDING 45 = some (s, [], []) ∧
      ∃ g, s.flights.find? (fun x => x.id == 1) = some g ∧
        g.status = FlightStatus.CANCELLED) :=
  ⟨by decide,
   claim_C5_job_never_overrides_manual_cancel _ 1 FlightStatus.BOARDING 45
     { id := 1, status := FlightStatus.CANCELLED } (by decide) rfl⟩

end Airflow

namespace Airflow

/-- C7 counterexample: expiring a concrete PENDING booking performs a
validated booking transition (PENDING to CANCELLED, visible in the
resulting store) while the list of StatusHistory rows appended by its
transaction is empty — the expire-booking transaction contains no
StatusHistory create, so not every validated transition appends exactly
one StatusHistory record. -/
theorem claim_C7_counterexample :
    ∃ s' jobs notifs,
      expireBooking
        { flights := []
          bookings := [{ id := 10, flightId := 5, status := BookingStatus.PENDING }]
          tickets := [{ id := 100, bookingId := 10, flightId := 5, seatId := some 7,
                        status := TicketStatus.ISSUED }]
          waitlist := [] }
        10 500 = some (s', [], jobs, notifs) ∧
      s'.bookings.find? (fun b => b.id == 10) =
        some { id := 10, flightId := 5, status := BookingStatus.CANCELLED } :=
  ⟨{ flights := []
     bookings := [{ id := 10, flightId := 5, status := BookingStatus.CANCELLED }]
     tickets := [{ id := 100, bookingId := 10, flightId := 5, seatId := some 7,
                   status := TicketStatus.CANCELLED }]
     waitlist := [] },
   [{ kind := JobKind.processWaitlistJob, targetId := 5, dueAt := 500 }],
   [{ event := "booking-expired", targetId := 10 }],
   by decide, by decide⟩

/-- C7 amended: each mutation bundle of a processor is committed as one
atomic step of the embedded store, but the StatusHistory coverage is
uneven: the start-boarding flight transition appends exactly one
StatusHistory row (entity ref, old status, new status, changedAt) in the
same transaction as the status mutation, while the expire-booking
transaction mutates Booking and Tickets together yet appends no
StatusHistory row at all. -/
theorem claim_C7_history_row_coverage
    (s : Store) (fid : Nat) (ns : FlightStatus) (now : Nat) (f : Flight)
    (hf : s.flights.find? (fun x => x.id == fid) = some f)
    (hsched : f.status = FlightStatus.SCHEDULED)
    (s2 : Store) (bid now2 : Nat) (b : Booking)
    (hb : s2.bookings.find? (fun x => x.id == bid) = some b)
    (hpend : b.status = BookingStatus.PENDING) :
    (∃ s' notifs, startBoarding s fid ns now =
      some (s', [{ flightId := fid, oldStatus := f.status,
                   newStatus := ns, changedAt := now }], notifs)) ∧
    (∃ s' jobs notifs, expireBooking s2 bid now2 = some (s', [], jobs, notifs)) := by
  constructor
  · have hsb : (f.status == FlightStatus.SCHEDULED) = true :=
      beq_iff_eq.mpr hsched
    refine ⟨{ s with flights := s.flights.map (fun x =>
        if x.id == fid then { x with status := ns } else x) },
      [{ event := "flight-status-change", targetId := fid }], ?_⟩
    simp [startBoarding, hf, hsb]
  · have hpb : (b.status == BookingStatus.PENDING) = true :=
      beq_iff_eq.mpr hpend
    refine ⟨{ s2 with
        bookings := s2.bookings.map (fun x =>
          if x.id == bid then { x with status := BookingStatus.CANCELLED } else x)
        tickets := s2.tickets.map (fun t =>
          if t.bookingId == bid then { t with status := TicketStatus.CANCELLED } else t) },
      [{ kind := JobKind.processWaitlistJob, targetId := b.flightId, dueAt := now2 }],
      [{ event := "booking-expired", targetId := bid }], ?_⟩
    simp [expireBooking, hb, hpb]

/-- C7 witness: the amended theorem applied to a concrete SCHEDULED
flight and a concrete PENDING booking. -/
theorem claim_C7_witness :
    let s : Store :=
      { flights := [{ id := 4, status := FlightStatus.SCHEDULED }]
        bookings := [], tickets := [], waitlist := [] }
    let s2 : Store :=
      { flights := []
        bookings := [{ id := 11, flightId := 4, status := BookingStatus.PENDING }]
        tickets := [], waitlist := [] }
    s.flights.find? (fun x => x.id == 4) =
        some { id := 4, status := FlightStatus.SCHEDULED } ∧
    s2.bookings.find? (fun x => x.id == 11) =
        some { id := 11, flightId := 4, status := BookingStatus.PENDING } ∧
    ((∃ s' notifs, startBoarding s 4 FlightStatus.BOARDING 9 =
        some (s', [{ flightId := 4, oldStatus := FlightStatus.SCHEDULED,
                     newStatus := FlightStatus.BOARDING, changedAt := 9 }], notifs)) ∧
      (∃ s' jobs notifs, expireBooking s2 11 77 = some (s', [], jobs, notifs))) :=
  ⟨by decide, by decide,
   claim_C7_history_row_coverage _ 4 FlightStatus.BOARDING 9
     { id := 4, status := FlightStatus.SCHEDULED } (by decide) rfl
     _ 11 77 { id := 11, flightId := 4, status := BookingStatus.PENDING }
     (by decide) rfl⟩

/-- C9: createBooking yields a Booking whose status is the schema default
PENDING, stores with it a Ticket whose status is the schema default
ISSUED and which references the booking, enqueues an expire-booking job
for the booking due at now plus the configured 15 minutes, and returns
the created booking. -/
theorem claim_C9_create_booking (s : Store) (bid tid fid sid now : Nat) :
    ∃ s' job b, createBooking s bid tid fid sid now = (s', job, b) ∧
      b.id = bid ∧ b.status = BookingStatus.PENDING ∧ b ∈ s'.bookings ∧
      (∃ t ∈ s'.tickets, t.id = tid ∧ t.bookingId = bid ∧
        t.status = TicketStatus.ISSUED) ∧
      job.kind = JobKind.expireBookingJob ∧ job.targetId = bid ∧
      job.dueAt = now + 15 * 60 * 1000 := by
  refine ⟨_, _, _, rfl, rfl, rfl, ?_,
    ⟨{ id := tid, bookingId := bid, flightId := fid, seatId := some sid,
       status := TicketStatus.ISSUED }, ?_, rfl, rfl, rfl⟩, rfl, rfl, rfl⟩
  · simp [createBooking]
  · simp [createBooking]

/-- C8: the allocator's release is idempotent — releasing a ticket that
holds no seat is a no-op and not an error (release is a total function),
and releasing twice in a row leaves exactly the state of releasing once,
with no double-free effect. -/
theorem claim_C8_release_idempotent (assigns : List SeatAssignment) (tid : Nat) :
    release (release assigns tid) tid = release assigns tid ∧
    (holdsSeat assigns tid = false → release assigns tid = assigns) := by
  constructor
  · unfold release
    rw [List.filter_filter]
    apply List.filter_congr
    intro a _
    cases h : a.ticketId == tid <;> simp [h]
  · intro hfree
    unfold release
    apply List.filter_eq_self.mpr
    intro a ha
    cases hx : a.ticketId == tid with
    | false => rfl
    | true =>
      exfalso
      have hh : holdsSeat assigns tid = true := List.any_eq_true.mpr ⟨a, ha, hx⟩
      rw [hfree] at hh
      exact Bool.noConfusion hh

/-- C8 witness: the theorem applied to a concrete assignment table, once
for a ticket holding a seat (double release equals single release) and
once for a ticket holding none (release is the identity). -/
theorem claim_C8_witness :
    let l : List SeatAssignment :=
      [{ flightId := 1, seatId := 7, ticketId := 100 }]
    release (release l 100) 100 = release l 100 ∧
    (holdsSeat l 200 = false ∧ release l 200 = l) :=
  ⟨(claim_C8_release_idempotent _ 100).1,
   by decide,
   (claim_C8_release_idempotent _ 200).2 (by decide)⟩

end Airflow

namespace Airflow

/-- C2: the scheduler-invoked expire(bookingId) re-reads the booking. If
its status is not PENDING at execution time the call is a complete no-op:
the store is returned unchanged and no job or notification is emitted. If
it is still PENDING, the booking is transitioned to CANCELLED, every
ticket of the booking is transitioned to CANCELLED (releasing its seat
hold), everything else is untouched, and a waitlist-promotion job for the
booking's flight is enqueued. -/
theorem claim_C2_expire_is_noop_unless_pending (s : Store) (bid now : Nat)
    (b : Booking) (hfind : s.bookings.find? (fun x => x.id == bid) = some b) :
    (b.status ≠ BookingStatus.PENDING →
      expireBooking s bid now = some (s, [], [], [])) ∧
    (b.status = BookingStatus.PENDING →
      ∃ s' jobs notifs, expireBooking s bid now = some (s', [], jobs, notifs) ∧
        (∀ x ∈ s'.bookings, x.id = bid → x.status = BookingStatus.CANCELLED) ∧
        (∃ x ∈ s'.bookings, x.id = bid) ∧
        (∀ x ∈ s.bookings, x.id ≠ bid → x ∈ s'.bookings) ∧
        (∀ t ∈ s'.tickets, t.bookingId = bid → t.status = TicketStatus.CANCELLED) ∧
        (∀ t ∈ s.tickets, t.bookingId ≠ bid → t ∈ s'.tickets) ∧
        s'.flights = s.flights ∧ s'.waitlist = s.waitlist ∧
        jobs = [{ kind := JobKind.processWaitlistJob, targetId := b.flightId,
                  dueAt := now }]) := by
  constructor
  · intro hne
    have hb : (b.status == BookingStatus.PENDING) = false :=
      beq_eq_false_iff_ne.mpr hne
    simp [expireBooking, hfind, hb]
  · intro hp
    have hb : (b.status == BookingStatus.PENDING) = true := beq_iff_eq.mpr hp
    refine ⟨{ s with
        bookings := s.bookings.map (fun x =>
          if x.id == bid then { x with status := BookingStatus.CANCELLED } else x)
        tickets := s.tickets.map (fun t =>
          if t.bookingId == bid then { t with status := TicketStatus.CANCELLED } else t) },
      [{ kind := JobKind.processWaitlistJob, targetId := b.flightId, dueAt := now }],
      [{ event := "booking-expired", targetId := bid }],
      ?_, ?_, ?_, ?_, ?_, ?_, rfl, rfl, rfl⟩
    · simp [expireBooking, hfind, hb]
    · intro x hx hxid
      rcases List.mem_map.mp hx with ⟨x0, hx0, hfx⟩
      by_cases h0 : (x0.id == bid) = true
      · rw [if_pos h0] at hfx
        rw [← hfx]
      · rw [if_neg (by simp [h0])] at hfx
        subst hfx
        exact absurd (beq_iff_eq.mpr hxid) (by simp [h0])
    · refine ⟨{ b with status := BookingStatus.CANCELLED }, ?_, ?_⟩
      · have hbmem : b ∈ s.bookings := List.mem_of_find?_eq_some hfind
        have hbid := List.find?_some hfind
        refine List.mem_map.mpr ⟨b, hbmem, ?_⟩
        rw [if_pos hbid]
      · have hbid := List.find?_some hfind
        exact beq_iff_eq.mp hbid
    · intro x hx hne
      refine List.mem_map.mpr ⟨x, hx, ?_⟩
      rw [if_neg (by simp [hne])]
    · intro t ht htid
      rcases List.mem_map.mp ht with ⟨t0, ht0, hft⟩
      by_cases h0 : (t0.bookingId == bid) = true
      · rw [if_pos h0] at hft
        rw [← hft]
      · rw [if_neg (by simp [h0])] at hft
        subst hft
        exact absurd (beq_iff_eq.mpr htid) (by simp [h0])
    · intro t ht hne
      refine List.mem_map.mpr ⟨t, ht, ?_⟩
      rw [if_neg (by simp [hne])]

/-- C2 witness: the theorem applied to a concrete CONFIRMED booking (the
no-op branch) — the processor returns the store untouched and enqueues
nothing. -/
theorem claim_C2_witness :
    expireBooking
      { flights := []
        bookings := [{ id := 10, flightId := 5, status := BookingStatus.CONFIRMED }]
        tickets := [{ id := 100, bookingId := 10, flightId := 5, seatId := some 7,
                      status := TicketStatus.ISSUED }]
        waitlist := [] }
      10 99 =
    some
      ({ flights := []
         bookings := [{ id := 10, flightId := 5, status := BookingStatus.CONFIRMED }]
         tickets := [{ id := 100, bookingId := 10, flightId := 5, seatId := some 7,
                       status := TicketStatus.ISSUED }]
         waitlist := [] }, [], [], []) :=
  (claim_C2_expire_is_noop_unless_pending _ 10 99
    { id := 10, flightId := 5, status := BookingStatus.CONFIRMED }
    (by decide)).1 (by decide)

end Airflow

namespace Airflow

/-- A fresh job with a positive retry budget satisfies the scheduler
invariant. -/
theorem jobInv_init (maxA delay0 : Nat) (hpos : 0 < maxA) :
    JobInv maxA (initJob maxA delay0) := by
  refine ⟨rfl, Nat.zero_le _, fun _ => hpos, fun h => ?_⟩
  exact absurd h (by simp [initJob])

/-- Each scheduler step preserves the invariant. -/
theorem jobInv_step {base cap maxA : Nat} {j j' : Job}
    (hstep : JobStep base cap j j') (hinv : JobInv maxA j) : JobInv maxA j' := by
  obtain ⟨hmax, hle, hlive, hdead⟩ := hinv
  cases hstep with
  | claim h =>
    refine ⟨hmax, hle, fun _ => hlive ?_, fun hc => JobStatus.noConfusion hc⟩
    rw [h]
    exact fun hc => JobStatus.noConfusion hc
  | succeed h =>
    refine ⟨hmax, hle, fun _ => hlive ?_, fun hc => JobStatus.noConfusion hc⟩
    rw [h]
    exact fun hc => JobStatus.noConfusion hc
  | failRetry h hlt =>
    refine ⟨hmax, ?_, fun _ => ?_, fun hc => JobStatus.noConfusion hc⟩
    · show j.attempts + 1 ≤ maxA
      omega
    · show j.attempts + 1 < maxA
      omega
  | failDead h hge =>
    have hrun : j.attempts < maxA := by
      refine hlive ?_
      rw [h]
      exact fun hc => JobStatus.noConfusion hc
    refine ⟨hmax, ?_, fun hc => absurd rfl hc, fun _ => rfl⟩
    show j.attempts + 1 ≤ maxA
    omega

/-- The invariant holds at every state reachable from a fresh job. -/
theorem jobInv_reachable (base cap maxA delay0 : Nat) (hpos : 0 < maxA)
    {j : Job} (hreach : JobReachable base cap (initJob maxA delay0) j) :
    JobInv maxA j := by
  induction hreach with
  | refl => exact jobInv_init maxA delay0 hpos
  | tail hsteps hstep ih => exact jobInv_step hstep ih

/-- C6: for every reachable job state, attempts never exceeds the
configured maxAttempts; a handler failure increments attempts and, while
attempts stays below maxAttempts, reschedules the job with the capped
exponential backoff delay base * 2 ^ attempts; and a job that reached
DEAD has its operator alert emitted and allows no further scheduler step
at all — it is never re-queued. -/
theorem claim_C6_attempts_bounded_and_dead_final
    (base cap maxA delay0 : Nat) (hpos : 0 < maxA) (j : Job)
    (hreach : JobReachable base cap (initJob maxA delay0) j) :
    j.attempts ≤ maxA ∧
    (j.status = JobStatus.DEAD →
      j.alerted = true ∧ ∀ j', ¬ JobStep base cap j j') ∧
    (∀ j', JobStep base cap j j' → j'.status = JobStatus.PENDING →
      j.status = JobStatus.RUNNING →
      j'.attempts = j.attempts + 1 ∧
      j'.delayMs = min (base * 2 ^ (j.attempts + 1)) cap) := by
  obtain ⟨hmax, hle, hlive, hdead⟩ := jobInv_reachable base cap maxA delay0 hpos hreach
  refine ⟨hle, fun hd => ⟨hdead hd, ?_⟩, ?_⟩
  · intro j' hstep
    cases hstep with
    | claim h => rw [hd] at h; exact JobStatus.noConfusion h
    | succeed h => rw [hd] at h; exact JobStatus.noConfusion h
    | failRetry h hlt => rw [hd] at h; exact JobStatus.noConfusion h
    | failDead h hge => rw [hd] at h; exact JobStatus.noConfusion h
  · intro j' hstep hpend hrun
    cases hstep with
    | claim h => rw [hrun] at h; exact JobStatus.noConfusion h
    | succeed h => exact JobStatus.noConfusion hpend
    | failRetry h hlt => exact ⟨rfl, rfl⟩
    | failDead h hge => exact JobStatus.noConfusion hpend

/-- C6 witness: a concrete trace with maxAttempts 3 and backoff base
2000 — claim, fail (rescheduled at 4000 ms), claim, fail (rescheduled at
8000 ms), claim, fail — reaching the DEAD state with attempts 3, to
which the theorem applies. -/
theorem claim_C6_witness :
    let jd : Job := { status := JobStatus.DEAD, attempts := 3, maxAttempts := 3,
                      delayMs := 8000, alerted := true }
    (0 < 3) ∧
    (jd.attempts ≤ 3 ∧
      (jd.status = JobStatus.DEAD →
        jd.alerted = true ∧ ∀ j', ¬ JobStep 2000 30000 jd j') ∧
      (∀ j', JobStep 2000 30000 jd j' → j'.status = JobStatus.PENDING →
        jd.status = JobStatus.RUNNING →
        j'.attempts = jd.attempts + 1 ∧
        j'.delayMs = min (2000 * 2 ^ (jd.attempts + 1)) 30000)) := by
  intro jd
  have h1 : JobStep 2000 30000 (initJob 3 500)
      { status := JobStatus.RUNNING, attempts := 0, maxAttempts := 3,
        delayMs := 500, alerted := false } :=
    JobStep.claim _ rfl
  have h2 : JobStep 2000 30000
      { status := JobStatus.RUNNING, attempts := 0, maxAttempts := 3,
        delayMs := 500, alerted := false }
      { status := JobStatus.PENDING, attempts := 1, maxAttempts := 3,
        delayMs := 4000, alerted := false } :=
    JobStep.failRetry _ rfl (by decide)
  have h3 : JobStep 2000 30000
      { status := JobStatus.PENDING, attempts := 1, maxAttempts := 3,
        delayMs := 4000, alerted := false }
      { status := JobStatus.RUNNING, attempts := 1, maxAttempts := 3,
        delayMs := 4000, alerted := false } :=
    JobStep.claim _ rfl
  have h4 : JobStep 2000 30000
      { status := JobStatus.RUNNING, attempts := 1, maxAttempts := 3,
        delayMs := 4000, alerted := false }
      { status := JobStatus.PENDING, attempts := 2, maxAttempts := 3,
        delayMs := 8000, alerted := false } :=
    JobStep.failRetry _ rfl (by decide)
  have h5 : JobStep 2000 30000
      { status := JobStatus.PENDING, attempts := 2, maxAttempts := 3,
        delayMs := 8000, alerted := false }
      { status := JobStatus.RUNNING, attempts := 2, maxAttempts := 3,
        delayMs := 8000, alerted := false } :=
    JobStep.claim _ rfl
  have h6 : JobStep 2000 30000
      { status := JobStatus.RUNNING, attempts := 2, maxAttempts := 3,
        delayMs := 8000, alerted := false } jd :=
    JobStep.failDead _ rfl (by decide)
  have hreach : JobReachable 2000 30000 (initJob 3 500) jd :=
    (((((Relation.ReflTransGen.single h1).tail h2).tail h3).tail h4).tail h5).tail h6
  exact ⟨by decide,
    claim_C6_attempts_bounded_and_dead_final 2000 30000 3 500 (by decide) jd hreach⟩

end Airflow

namespace Airflow

/-- The (rank, createdAt) comparison is transitive. -/
theorem waitlistLe_trans (a b c : WaitlistEntry) :
    waitlistLe a b → waitlistLe b c → waitlistLe a c := by
  simp only [waitlistLe, Bool.or_eq_true, Bool.and_eq_true, decide_eq_true_eq,
    beq_iff_eq]
  omega

/-- The (rank, createdAt) comparison is total. -/
theorem waitlistLe_total (a b : WaitlistEntry) :
    waitlistLe a b || waitlistLe b a := by
  simp only [waitlistLe, Bool.or_eq_true, Bool.and_eq_true, decide_eq_true_eq,
    beq_iff_eq]
  omega

/-- A weakly smaller entry is never strictly greater. -/
theorem waitlistLe_imp_not_lt {a b : WaitlistEntry}
    (h : waitlistLe a b = true) : ¬ waitlistLt b a := by
  simp only [waitlistLe, Bool.or_eq_true, Bool.and_eq_true, decide_eq_true_eq,
    beq_iff_eq] at h
  unfold waitlistLt
  omega

/-- A weak comparison together with distinct keys is strict. -/
theorem waitlistLe_ne_imp_lt {a b : WaitlistEntry}
    (hle : waitlistLe a b = true)
    (hne : a.waitlistRank ≠ b.waitlistRank ∨ a.createdAt ≠ b.createdAt) :
    waitlistLt a b := by
  simp only [waitlistLe, Bool.or_eq_true, Bool.and_eq_true, decide_eq_true_eq,
    beq_iff_eq] at hle
  unfold waitlistLt
  omega

/-- Folding the per-entry CONFIRMED updates of the processor loop over a
waitlist equals one map that confirms exactly the entries whose id occurs
among the selected ones. -/
theorem foldl_confirmEntryById (sel : List WaitlistEntry) :
    ∀ l : List WaitlistEntry,
      sel.foldl (fun acc e => confirmEntryById acc e.id) l =
        l.map (fun x =>
          if sel.any (fun e => x.id == e.id) then
            { x with status := WaitlistStatus.CONFIRMED } else x) := by
  induction sel with
  | nil =>
    intro l
    simp
  | cons a sel ih =>
    intro l
    rw [List.foldl_cons, ih]
    rw [show confirmEntryById l a.id =
      l.map (fun x => if x.id == a.id then
        { x with status := WaitlistStatus.CONFIRMED } else x) from rfl]
    rw [List.map_map]
    apply List.map_congr_left
    intro x hx
    by_cases hid : (x.id == a.id) = true <;>
      by_cases hs : (sel.any fun e => x.id == e.id) = true <;>
      simp [Function.comp, hid, hs]

/-- C3: promote(flightId, freedSeats) selects exactly the first
freedSeats ACTIVE waitlist entries of the flight in strictly ascending
(rank, createdAt) order (given pairwise-distinct keys, as ranks strictly
order promotion and ties are broken by creation time), transitions each
selected entry to CONFIRMED, enqueues for each one a confirmation-expiry
job due at now + 24 hours, and never confirms an entry while a
strictly lower-keyed entry remains ACTIVE: every unselected ACTIVE entry
survives untouched and none of them is strictly below any selected
entry. -/
theorem claim_C3_promotion_strict_order (s : Store) (fid n now : Nat)
    (hids : (s.waitlist.map (fun e => e.id)).Nodup)
    (hkeys : (activeEntriesFor s fid).Pairwise
      (fun a b => a.waitlistRank ≠ b.waitlistRank ∨ a.createdAt ≠ b.createdAt)) :
    (selectedForPromotion s fid n).length =
        min n (activeEntriesFor s fid).length ∧
    (selectedForPromotion s fid n).Pairwise waitlistLt ∧
    (∀ e ∈ selectedForPromotion s fid n,
      ({ e with status := WaitlistStatus.CONFIRMED } : WaitlistEntry) ∈
          (processWaitlist s fid n now).1.waitlist ∧
      ({ kind := JobKind.expireWaitlistConfirmationJob, targetId := e.id,
         dueAt := now + 24 * 60 * 60 * 1000 } : EnqueuedJob) ∈
          (processWaitlist s fid n now).2.1) ∧
    (∀ e' ∈ activeEntriesFor s fid, e' ∉ selectedForPromotion s fid n →
      e' ∈ (processWaitlist s fid n now).1.waitlist ∧
      ∀ e ∈ selectedForPromotion s fid n, ¬ waitlistLt e' e) := by
  have hperm : List.Perm (List.mergeSort (activeEntriesFor s fid) waitlistLe)
      (activeEntriesFor s fid) := List.mergeSort_perm _ _
  have hsorted : (List.mergeSort (activeEntriesFor s fid) waitlistLe).Pairwise
      (fun a b => waitlistLe a b = true) :=
    List.sorted_mergeSort waitlistLe_trans waitlistLe_total _
  have hsel_def : selectedForPromotion s fid n =
      (List.mergeSort (activeEntriesFor s fid) waitlistLe).take n := rfl
  have hsel_sub_act : ∀ e ∈ selectedForPromotion s fid n,
      e ∈ activeEntriesFor s fid := by
    intro e he
    rw [hsel_def] at he
    exact hperm.mem_iff.mp (List.take_subset _ _ he)
  have hact_sub_wl : ∀ e ∈ activeEntriesFor s fid, e ∈ s.waitlist := by
    intro e he
    exact (List.mem_filter.mp he).1
  have hwl : (processWaitlist s fid n now).1.waitlist =
      s.waitlist.map (fun x =>
        if (selectedForPromotion s fid n).any (fun e => x.id == e.id) then
          { x with status := WaitlistStatus.CONFIRMED } else x) :=
    foldl_confirmEntryById _ _
  have hjobs : (processWaitlist s fid n now).2.1 =
      (selectedForPromotion s fid n).map (fun e =>
        { kind := JobKind.expireWaitlistConfirmationJob, targetId := e.id,
          dueAt := now + 24 * 60 * 60 * 1000 }) := rfl
  refine ⟨?_, ?_, ?_, ?_⟩
  · rw [hsel_def, List.length_take, List.length_mergeSort]
  · have hkeys' : (List.mergeSort (activeEntriesFor s fid) waitlistLe).Pairwise
        (fun a b => a.waitlistRank ≠ b.waitlistRank ∨ a.createdAt ≠ b.createdAt) :=
      hkeys.perm hperm.symm (fun h => h.imp Ne.symm Ne.symm)
    have hboth := hsorted.and hkeys'
    rw [hsel_def]
    exact hboth.take.imp (fun h => waitlistLe_ne_imp_lt h.1 h.2)
  · intro e he
    constructor
    · rw [hwl]
      have hewl : e ∈ s.waitlist := hact_sub_wl e (hsel_sub_act e he)
      refine List.mem_map.mpr ⟨e, hewl, ?_⟩
      have hcond : ((selectedForPromotion s fid n).any (fun x => e.id == x.id)) = true :=
        List.any_eq_true.mpr ⟨e, he, by simp⟩
      rw [if_pos hcond]
    · rw [hjobs]
      exact List.mem_map_of_mem _ he
  · intro e' he' hnot
    have he'wl : e' ∈ s.waitlist := hact_sub_wl e' he'
    have hcond : ((selectedForPromotion s fid n).any (fun x => e'.id == x.id)) = false := by
      refine Bool.eq_false_iff.mpr ?_
      intro hc
      rcases List.any_eq_true.mp hc with ⟨x, hxsel, hxid⟩
      have hxwl : x ∈ s.waitlist := hact_sub_wl x (hsel_sub_act x hxsel)
      have hex : e' = x :=
        List.inj_on_of_nodup_map hids he'wl hxwl (beq_iff_eq.mp hxid)
      exact hnot (hex ▸ hxsel)
    constructor
    · rw [hwl]
      refine List.mem_map.mpr ⟨e', he'wl, ?_⟩
      rw [if_neg (by rw [hcond]; exact fun hc => Bool.noConfusion hc)]
    · intro e hesel
      have hsplit := (List.take_append_drop n
        (List.mergeSort (activeEntriesFor s fid) waitlistLe)).symm
      have hpa := hsorted
      rw [hsplit, List.pairwise_append] at hpa
      have he'sorted : e' ∈ List.mergeSort (activeEntriesFor s fid) waitlistLe :=
        hperm.mem_iff.mpr he'
      have he'drop : e' ∈ (List.mergeSort (activeEntriesFor s fid) waitlistLe).drop n := by
        rw [hsplit] at he'sorted
        rcases List.mem_append.mp he'sorted with h | h
        · rw [hsel_def] at hnot
          exact absurd h hnot
        · exact h
      have hle := hpa.2.2 e (by rw [hsel_def] at hesel; exact hesel) e' he'drop
      exact waitlistLe_imp_not_lt hle

end Airflow

namespace Airflow

/-- C3 witness: the theorem applied to a concrete three-entry waitlist
for flight 5 with two freed seats — the processor must confirm the two
rank-1 entries (creation order 4 before 9) and leave the rank-2 entry
ACTIVE. -/
theorem claim_C3_witness :
    let s : Store :=
      { flights := [], bookings := [], tickets := []
        waitlist :=
          [{ id := 1, passengerId := 11, flightId := 5, waitlistRank := 2,
             createdAt := 3, status := WaitlistStatus.ACTIVE },
           { id := 2, passengerId := 12, flightId := 5, waitlistRank := 1,
             createdAt := 9, status := WaitlistStatus.ACTIVE },
           { id := 3, passengerId := 13, flightId := 5, waitlistRank := 1,
             createdAt := 4, status := WaitlistStatus.ACTIVE }] }
    ((s.waitlist.map (fun e => e.id)).Nodup) ∧
    ((activeEntriesFor s 5).Pairwise
      (fun a b => a.waitlistRank ≠ b.waitlistRank ∨ a.createdAt ≠ b.createdAt)) ∧
    ((selectedForPromotion s 5 2).length =
        min 2 (activeEntriesFor s 5).length ∧
      (selectedForPromotion s 5 2).Pairwise waitlistLt ∧
      (∀ e ∈ selectedForPromotion s 5 2,
        ({ e with status := WaitlistStatus.CONFIRMED } : WaitlistEntry) ∈
            (processWaitlist s 5 2 1000).1.waitlist ∧
        ({ kind := JobKind.expireWaitlistConfirmationJob, targetId := e.id,
           dueAt := 1000 + 24 * 60 * 60 * 1000 } : EnqueuedJob) ∈
            (processWaitlist s 5 2 1000).2.1) ∧
      (∀ e' ∈ activeEntriesFor s 5, e' ∉ selectedForPromotion s 5 2 →
        e' ∈ (processWaitlist s 5 2 1000).1.waitlist ∧
        ∀ e ∈ selectedForPromotion s 5 2, ¬ waitlistLt e' e)) :=
  ⟨by decide, by decide,
   claim_C3_promotion_strict_order _ 5 2 1000 (by decide) (by decide)⟩

end Airflow
